import Mathlib

/-!
Verification development for the youtube-splitter repository (src/server.js).

The file `src/server.js` contains two near-duplicate Express servers
("variant 1", using youtube-dl-exec, and "variant 2", using a RapidAPI
fetch service).  Both expose `POST /split-video` (timestamp normalization,
media fetch, per-interval ffmpeg transcoding with cleanup policy) and
`GET /download/:filename`.

The embedding below models:
 * JavaScript numbers restricted to the integer/NaN/Infinity values that
   timestamp parsing can produce (`JSNum`), with the IEEE special-value
   rules for the arithmetic the code performs;
 * `Number(string)` on the string shapes relevant here (`jsNumberChars`);
 * the timestamp-parsing pipeline shared verbatim by both variants
   (server.js lines 63-73 and 384-391): map, `filter(ts => !isNaN(ts))`,
   `sort((a, b) => a - b)`, and the `unshift(0)` step;
 * the per-interval ffmpeg invocation loop (lines 126-157 and 480-534);
 * both POST handlers as functions from an environment (the behaviour of
   the external fetch/transcode collaborators) and a request to an
   outcome (HTTP response, external calls made, files left on disk);
 * Node's `path.join` and the `GET /download/:filename` handler.
-/

/-- A JavaScript number as produced by timestamp parsing: `NaN`, a signed
infinity, or a finite integer value.  (All timestamp arithmetic in the
source operates on integral values; finite doubles are modelled as
integers.) -/
inductive JSNum where
  | nan : JSNum
  | inf : Bool → JSNum
  | fin : Int → JSNum
deriving DecidableEq

/-- JavaScript `isNaN` on a number. -/
def JSNum.isNaN : JSNum → Bool
  | .nan => true
  | _ => false

/-- JavaScript unary minus. -/
def JSNum.neg : JSNum → JSNum
  | .nan => .nan
  | .inf b => .inf (!b)
  | .fin n => .fin (-n)

/-- JavaScript `+` on numbers (IEEE rules for NaN and infinities). -/
def JSNum.add : JSNum → JSNum → JSNum
  | .nan, _ => .nan
  | _, .nan => .nan
  | .inf b, .inf c => if b = c then .inf b else .nan
  | .inf b, .fin _ => .inf b
  | .fin _, .inf c => .inf c
  | .fin a, .fin b => .fin (a + b)

/-- JavaScript `*` on numbers (IEEE rules for NaN and infinities). -/
def JSNum.mul : JSNum → JSNum → JSNum
  | .nan, _ => .nan
  | _, .nan => .nan
  | .inf b, .inf c => .inf (b = c)
  | .inf b, .fin k => if k = 0 then .nan else .inf (b = decide (0 < k))
  | .fin k, .inf b => if k = 0 then .nan else .inf (b = decide (0 < k))
  | .fin a, .fin b => .fin (a * b)

/-- JavaScript `-` on numbers. -/
def JSNum.sub (a b : JSNum) : JSNum := a.add b.neg

/-- The non-strict order induced by the comparator `(a, b) => a - b` that
the source passes to `Array.prototype.sort`: `-Infinity` below all finite
values, finite values by integer order, then `+Infinity`.  `NaN` (never
present after the `!isNaN` filter) is placed on top so that the relation
stays total. -/
def jsLe : JSNum → JSNum → Bool
  | _, .nan => true
  | .nan, _ => false
  | .inf false, _ => true
  | _, .inf false => false
  | _, .inf true => true
  | .inf true, _ => false
  | .fin a, .fin b => decide (a ≤ b)

/-- Strict version of `jsLe`. -/
def jsLt (a b : JSNum) : Bool := !jsLe b a

/-- Value of a decimal-digit string, if every character is a digit. -/
def digitsVal (cs : List Char) : Option Nat :=
  if !cs.isEmpty && cs.all Char.isDigit then
    some (cs.foldl (fun a c => a * 10 + (c.toNat - 48)) 0)
  else none

/-- JavaScript `Number()` on an unsigned string body: `Infinity`, or a
decimal digit run; anything else is `NaN`. -/
def jsUnsignedChars (cs : List Char) : JSNum :=
  if cs = "Infinity".toList then .inf true
  else
    match digitsVal cs with
    | some n => .fin (Int.ofNat n)
    | none => .nan

/-- Model of JavaScript `Number(string)` for the string shapes this
program feeds it: the empty string is `0`; an optional sign followed by
decimal digits or `Infinity`; every other string (including anything
containing a colon, a letter, or a decimal point) is `NaN`. -/
def jsNumberChars (cs : List Char) : JSNum :=
  match cs with
  | [] => .fin 0
  | c :: rest =>
    if c = '-' then (jsUnsignedChars rest).neg
    else if c = '+' then jsUnsignedChars rest
    else jsUnsignedChars (c :: rest)

/-- Model of `String.prototype.split` with a single-character separator, as used
by `ts.split(':')`. -/
def splitOnChar (sep : Char) : List Char → List (List Char)
  | [] => [[]]
  | c :: cs =>
    if c = sep then [] :: splitOnChar sep cs
    else
      match splitOnChar sep cs with
      | h :: t => (c :: h) :: t
      | [] => [[c]]

/-- Fuel-indexed worker for `splitOnSeq` (the fuel is the input length,
which bounds the recursion). -/
def splitOnSeqFuel (sep : List Char) : Nat → List Char → List (List Char)
  | _, [] => [[]]
  | 0, cs => [cs]
  | fuel + 1, c :: cs =>
    if sep.isPrefixOf (c :: cs) && !sep.isEmpty then
      [] :: splitOnSeqFuel sep fuel ((c :: cs).drop sep.length)
    else
      match splitOnSeqFuel sep fuel cs with
      | h :: t => (c :: h) :: t
      | [] => [[c]]

/-- Model of `String.prototype.split` with a multi-character separator, as used by
`youtubeUrl.split('v=')`. -/
def splitOnSeq (sep cs : List Char) : List (List Char) :=
  splitOnSeqFuel sep cs.length cs

/-- A raw timestamp entry from the request body: a JSON string or a JSON
number. -/
inductive Raw where
  | str : String → Raw
  | num : JSNum → Raw
deriving DecidableEq

/-- One raw entry of the timestamp array, parsed exactly as the `map`
callback in server.js lines 63-72 (variant 1) and 384-390 (variant 2)
does: a string containing a colon is split on `:` and read as `mm:ss`
(2 parts, `parts[0] * 60 + parts[1]`) or `hh:mm:ss` (3 parts,
`parts[0] * 3600 + parts[1] * 60 + parts[2]`); everything else goes
through `Number(ts)`. -/
def parseEntry (ts : Raw) : JSNum :=
  match ts with
  | .num n => n
  | .str s =>
    if s.toList.contains ':' then
      let parts := (splitOnChar ':' s.toList).map jsNumberChars
      if parts.length = 2 then
        ((parts.getD 0 .nan).mul (.fin 60)).add (parts.getD 1 .nan)
      else if parts.length = 3 then
        (((parts.getD 0 .nan).mul (.fin 3600)).add
          ((parts.getD 1 .nan).mul (.fin 60))).add (parts.getD 2 .nan)
      else jsNumberChars s.toList
    else jsNumberChars s.toList

/-- The parsed entries that survive `.filter(ts => !isNaN(ts))`
(server.js line 73 / 391). -/
def keptTimestamps (raw : List Raw) : List JSNum :=
  (raw.map parseEntry).filter (fun t => !t.isNaN)

/-- Ordered insertion with respect to `jsLe`. -/
def jsInsert (x : JSNum) : List JSNum → List JSNum
  | [] => [x]
  | y :: ys => if jsLe x y then x :: y :: ys else y :: jsInsert x ys

/-- Model of `.sort((a, b) => a - b)` (server.js line 73 / 391): a
comparison sort with respect to the order induced by the comparator. -/
def jsSort : List JSNum → List JSNum
  | [] => []
  | x :: xs => jsInsert x (jsSort xs)

/-- The fully normalized, sorted timestamp list of a request, before the
leading-zero step. -/
def sortedTimestamps (raw : List Raw) : List JSNum :=
  jsSort (keptTimestamps raw)

/-- The `if (timestamps[0] !== 0) timestamps.unshift(0)` step
(server.js lines 80-82 / 403-405). -/
def addZero (ts : List JSNum) : List JSNum :=
  if ts.head? = some (.fin 0) then ts else .fin 0 :: ts

/-- The whole normalization pipeline of `POST /split-video` (identical in
both variants): parse, drop `NaN`s, sort ascending, fail when empty,
prepend `0` when the first element is not `0`.  `none` models the
`No valid timestamps provided` 400 response. -/
def normalizePlan (raw : List Raw) : Option (List JSNum) :=
  let ts := sortedTimestamps raw
  if ts.length = 0 then none else some (addZero ts)

/-- The title sanitization `videoInfo.title.replace(/[^a-z0-9]/gi, '_').toLowerCase()`
(server.js line 101 / 350 / 439-441): non-alphanumeric characters become
underscores, then everything is lower-cased. -/
def slugTitle (t : String) : String :=
  String.mk ((t.toList.map (fun c => if c.isAlphanum then c else '_')).map Char.toLower)

/-- The segment file name `videoTitle + '_segment_' + (i + 1) + '.mp3'`
for the 0-based interval index `i` (server.js line 129/155 and 483/516). -/
def segmentName (title : String) (i : Nat) : String :=
  title ++ "_segment_" ++ Nat.repr (i + 1) ++ ".mp3"

/-- The source media file name `videoTitle + '.mp3'`
(server.js line 104 / 380 / 442). -/
def sourceName (title : String) : String := title ++ ".mp3"

/-- One invocation of the external transcoding operation:
`setStartTime(startTime)` plus, when `timestamps[i + 1]` is defined,
`setDuration(endTime - startTime)` (server.js lines 133-137 / 488-499). -/
structure Invocation where
  start : JSNum
  duration : Option JSNum
deriving DecidableEq

/-- The ffmpeg arguments the loop body computes at index `i`:
`startTime = timestamps[i]`, `endTime = timestamps[i + 1]` (undefined on
the last interval), duration `endTime - startTime` when defined. -/
def invAt (plan : List JSNum) (i : Nat) : Invocation :=
  ⟨plan.getD i (.fin 0), (plan[i + 1]?).map (fun e => e.sub (plan.getD i (.fin 0)))⟩

/-- All invocations the loop issues when every interval succeeds, in
order: one per element of the cut plan. -/
def plannedInvocations (plan : List JSNum) : List Invocation :=
  (List.range plan.length).map (invAt plan)

/-- Result of the segment loop: either every interval succeeded (with the
invocation trace and the created segment file names), or interval `idx`
failed after the listed invocations, with the segments created by the
prior intervals. -/
inductive SegResult where
  | done (invs : List Invocation) (segs : List String)
  | fail (idx : Nat) (invs : List Invocation) (segs : List String)
deriving DecidableEq

/-- The `for (let i = 0; i < timestamps.length; i++)` transcoding loop of
both variants (server.js lines 126-157 and 480-534), driven by the list
of remaining indices.  `ok i` tells whether the external ffmpeg operation
for interval `i` succeeds; each successful iteration appends the segment
file, a failing iteration stops the loop (variant 1 throws to the outer
catch, variant 2 returns from its inner catch). -/
def segLoopFrom (ok : Nat → Bool) (title : String) (plan : List JSNum) :
    List Nat → List Invocation → List String → SegResult
  | [], invs, segs => .done invs segs
  | i :: rest, invs, segs =>
    if ok i then
      segLoopFrom ok title plan rest (invs ++ [invAt plan i]) (segs ++ [segmentName title i])
    else .fail i (invs ++ [invAt plan i]) segs

/-- The whole segment loop, started at index 0 with no segments yet. -/
def runSegments (ok : Nat → Bool) (title : String) (plan : List JSNum) : SegResult :=
  segLoopFrom ok title plan (List.range plan.length) [] []

/-- A `POST /split-video` request body.  `none` in a field models a
missing (or, for `timestamps`, non-array) value, which the
`!youtubeUrl || !timestamps || !Array.isArray(timestamps)` guard
rejects; an empty URL string is likewise falsy in JavaScript. -/
structure Request where
  youtubeUrl : Option String
  timestamps : Option (List Raw)

/-- The JSON response of the handler: HTTP status, the error message (the
`error` string of variant 1 or the `message` field of variant 2;
`none` on success), and the returned segment names. -/
structure HttpResponse where
  status : Nat
  errorMessage : Option String
  segments : List String
deriving DecidableEq

/-- Observable outcome of one `POST /split-video` request: the response,
the number of external fetch-service HTTP calls attempted (youtube-dl
invocations in variant 1; RapidAPI/axios requests in variant 2), the
transcoding invocations issued, and the request's files still on disk
when the response is sent. -/
structure Outcome where
  response : HttpResponse
  fetchCalls : Nat
  invocations : List Invocation
  disk : List String
deriving DecidableEq

/-- The external world as variant 1 sees it: whether the youtube-dl info
call succeeds and, if so, the raw video title; whether the youtube-dl
download succeeds; which ffmpeg interval invocations succeed; and the
message strings of the underlying errors. -/
structure EnvV1 where
  infoOk : Bool
  infoTitle : String
  infoErr : String
  downloadOk : Bool
  downloadErr : String
  segOk : Nat → Bool
  segErr : String

/-- Variant 1 `POST /split-video` (server.js lines 51-173).  Input guard,
normalization, youtube-dl info call, youtube-dl download, segment loop.
On a segment failure the rethrown error reaches the outer catch, which
only sends a 500 response: the source file and the previously produced
segments stay on disk.  On success the source file is unlinked and the
segment names are returned. -/
def handlerV1 (env : EnvV1) (req : Request) : Outcome :=
  match req.youtubeUrl, req.timestamps with
  | some url, some rawTs =>
    if url = "" then
      ⟨⟨400, some ("Invalid input"), []⟩, 0, [], []⟩
    else
      if (sortedTimestamps rawTs).length = 0 then
        ⟨⟨400, some ("No valid timestamps provided"), []⟩, 0, [], []⟩
      else
        if env.infoOk then
          if env.downloadOk then
            match runSegments env.segOk (slugTitle env.infoTitle)
                (addZero (sortedTimestamps rawTs)) with
            | .fail i invs segs =>
              ⟨⟨500, some ("Failed to process video: Failed to process segment " ++
                  Nat.repr (i + 1) ++ ": Failed to process segment " ++ Nat.repr (i + 1) ++
                  ": " ++ env.segErr), []⟩,
                2, invs, sourceName (slugTitle env.infoTitle) :: segs⟩
            | .done invs segs =>
              ⟨⟨200, none, segs⟩, 2, invs, segs⟩
          else
            ⟨⟨500, some ("Failed to process video: Failed to download video: " ++
                env.downloadErr), []⟩, 2, [], []⟩
        else
          ⟨⟨500, some ("Failed to process video: Failed to get video information: " ++
              env.infoErr), []⟩, 1, [], []⟩
  | _, _ => ⟨⟨400, some ("Invalid input"), []⟩, 0, [], []⟩

/-- Model of `youtubeUrl.split('v=')[1]?.split('&')[0]` with the subsequent
JavaScript truthiness check (server.js lines 330-333, 413-416, 559):
`none` when there is no `v=` in the URL or the extracted id is the empty
string. -/
def extractVideoId (url : String) : Option String :=
  match splitOnSeq ("v=".toList) url.toList with
  | _ :: second :: _ =>
    let vid := (splitOnChar '&' second).headD []
    if vid = [] then none else some (String.mk vid)
  | _ => none

/-- The external world as variant 2 sees it: whether the two RapidAPI
calls resolve, the `title` field of the API response (`none` or the empty
string are falsy, triggering the `youtube_video_<id>` fallback), whether
a download `link` is present, whether the MP3 stream download produces a
non-empty file, which ffmpeg intervals succeed, and error
message strings. -/
structure EnvV2 where
  infoCallOk : Bool
  infoStatusOk : Bool
  apiTitle : Option String
  linkOk : Bool
  linkErr : String
  downloadOk : Bool
  downloadErr : String
  segOk : Nat → Bool
  segErr : String

/-- The title the variant-2 download phase derives (server.js lines
439-441): the slug of `downloadResponse.data.title` when that field is
truthy, otherwise `youtube_video_<videoId>`. -/
def titleV2 (e : EnvV2) (vid : String) : String :=
  match e.apiTitle with
  | some t => if t = "" then "youtube_video_" ++ vid else slugTitle t
  | none => "youtube_video_" ++ vid

/-- Variant 2 `POST /split-video` (server.js lines 309-579).  Input
guard; then the video-info RapidAPI call (before timestamp parsing; a URL
without a video id is a 500 at this point); then normalization; then the
download-link RapidAPI call, MP3 stream download, and segment loop.  On a
segment failure the inner catch (lines 518-533) unlinks every produced
segment and the source file before sending the 500.  (The
`if (!videoTitle)` 404 branch at line 372 is unreachable: every path
before it assigns a non-empty title or returns.) -/
def handlerV2 (env : EnvV2) (req : Request) : Outcome :=
  match req.youtubeUrl, req.timestamps with
  | some url, some rawTs =>
    if url = "" then
      ⟨⟨400, some ("Invalid input: URL and timestamps are required"), []⟩, 0, [], []⟩
    else
      match extractVideoId url with
      | none =>
        ⟨⟨500, some ("Failed to fetch video information: Invalid YouTube URL"), []⟩,
          0, [], []⟩
      | some vid =>
        if (sortedTimestamps rawTs).length = 0 then
          ⟨⟨400, some ("No valid timestamps provided"), []⟩, 1, [], []⟩
        else
          if env.linkOk then
            if env.downloadOk then
              match runSegments env.segOk (titleV2 env vid) (addZero (sortedTimestamps rawTs)) with
              | .fail _ invs _ =>
                ⟨⟨500, some ("Failed to process video segments: " ++ env.segErr), []⟩,
                  3, invs, []⟩
              | .done invs segs =>
                ⟨⟨200, none, segs⟩, 3, invs, segs⟩
            else
              ⟨⟨500, some ("Failed to download video: " ++ env.downloadErr), []⟩,
                3, [], []⟩
          else
            ⟨⟨500, some ("Failed to download video: " ++ env.linkErr), []⟩, 2, [], []⟩
  | _, _ => ⟨⟨400, some ("Invalid input: URL and timestamps are required"), []⟩, 0, [], []⟩

/-- Worker for the component normalization performed by Node's
`path.join`/`path.normalize` (posix): drop empty and `.` components, let
`..` pop the previous component (or, on an absolute path, vanish at the
root; on a relative path, accumulate). -/
def normSegs (isAbs : Bool) : List (List Char) → List (List Char) → List (List Char)
  | acc, [] => acc.reverse
  | acc, c :: rest =>
    if c.isEmpty || c = ['.'] then normSegs isAbs acc rest
    else if c = ['.', '.'] then
      match acc with
      | [] => if isAbs then normSegs isAbs [] rest else normSegs isAbs [['.', '.']] rest
      | top :: tail =>
        if top = ['.', '.'] then normSegs isAbs (c :: acc) rest
        else normSegs isAbs tail rest
    else normSegs isAbs (c :: acc) rest

/-- Join the normalized components back with `/`. -/
def joinComps : List (List Char) → List Char
  | [] => []
  | [c] => c
  | c :: rest => c ++ '/' :: joinComps rest

/-- Model of Node `path.join(a, b)`: concatenate with a separator, then
normalize, resolving `.` and `..` components. -/
def pathJoin (a b : String) : String :=
  let cs := (a ++ "/" ++ b).toList
  let isAbs := cs.head? = some '/'
  let comps := normSegs (decide (cs.head? = some '/')) [] (splitOnChar '/' cs)
  let body := joinComps comps
  if isAbs then String.mk ('/' :: body)
  else if body = [] then "." else String.mk body

/-- Model of `path.join(__dirname, 'downloads')` (server.js line 25 / 261). -/
def downloadsDirOf (dirname : String) : String := pathJoin dirname ("downloads")

/-- The path the `GET /download/:filename` handler serves and deletes:
`path.join(downloadsDir, filename)` with the caller-supplied `filename`
used as-is (server.js lines 177-178 and 584-585 — no sanitization or
containment check). -/
def downloadFilePath (dirname filename : String) : String :=
  pathJoin (downloadsDirOf dirname) filename

/-- Whether path `p` is the downloads directory itself or lies below it. -/
def insideDir (dir p : String) : Bool :=
  p = dir || List.isPrefixOf (dir ++ "/").toList p.toList

/-- Observable outcome of `GET /download/:filename`. -/
structure DownloadOutcome where
  status : Nat
  servedPath : Option String
  deletedPath : Option String
deriving DecidableEq

/-- The `GET /download/:filename` handler of both variants (server.js
lines 175-196 and 581-623): resolve `path.join(downloadsDir, filename)`;
if the file exists, serve it with `res.download` and then `unlinkSync`
the same path; otherwise 404. -/
def downloadHandler (dirname filename : String) (fileExists : String → Bool) :
    DownloadOutcome :=
  let filePath := downloadFilePath dirname filename
  if fileExists filePath then ⟨200, some filePath, some filePath⟩
  else ⟨404, none, none⟩

/-- Rank of a `JSNum` in the order induced by the sort comparator. -/
def jsRank : JSNum → Nat
  | .inf false => 0
  | .fin _ => 1
  | .inf true => 2
  | .nan => 3

/-- Finite value of a `JSNum` (0 for the special values). -/
def jsVal : JSNum → Int
  | .fin n => n
  | _ => 0

/-- A list of timestamps is strictly increasing in the comparator order. -/
def StrictIncr (l : List JSNum) : Prop :=
  List.Pairwise (fun a b => jsLt a b = true) l

/-- The response contract: a 200 success with no error message, or a 400
or 500 failure that carries an error message. -/
def wellFormedResp (r : HttpResponse) : Prop :=
  (r.status = 200 ∧ r.errorMessage = none) ∨
    ((r.status = 400 ∨ r.status = 500) ∧ r.errorMessage ≠ none)

lemma jsLe_iff : ∀ a b : JSNum, jsLe a b = true ↔
    (jsRank a < jsRank b ∨ (jsRank a = jsRank b ∧ jsVal a ≤ jsVal b)) := by
  intro a b
  cases a with
  | nan =>
    cases b with
    | nan => simp [jsLe, jsRank, jsVal]
    | inf t => cases t <;> simp [jsLe, jsRank, jsVal]
    | fin m => simp [jsLe, jsRank, jsVal]
  | inf s =>
    cases s with
    | false =>
      cases b with
      | nan => simp [jsLe, jsRank, jsVal]
      | inf t => cases t <;> simp [jsLe, jsRank, jsVal]
      | fin m => simp [jsLe, jsRank, jsVal]
    | true =>
      cases b with
      | nan => simp [jsLe, jsRank, jsVal]
      | inf t => cases t <;> simp [jsLe, jsRank, jsVal]
      | fin m => simp [jsLe, jsRank, jsVal]
  | fin n =>
    cases b with
    | nan => simp [jsLe, jsRank, jsVal]
    | inf t => cases t <;> simp [jsLe, jsRank, jsVal]
    | fin m => simp [jsLe, jsRank, jsVal]

lemma jsLe_total (a b : JSNum) : jsLe a b = true ∨ jsLe b a = true := by
  rw [jsLe_iff, jsLe_iff]; omega

lemma jsLe_trans {a b c : JSNum} (h1 : jsLe a b = true) (h2 : jsLe b c = true) :
    jsLe a c = true := by
  rw [jsLe_iff] at h1 h2 ⊢; omega

lemma jsLe_antisymm : ∀ a b : JSNum, jsLe a b = true → jsLe b a = true → a = b := by
  intro a b
  cases a with
  | nan =>
    cases b with
    | nan => intro _ _; rfl
    | inf t => cases t <;> simp [jsLe]
    | fin m => simp [jsLe]
  | inf s =>
    cases b with
    | nan => cases s <;> simp [jsLe]
    | inf t => cases s <;> cases t <;> simp [jsLe]
    | fin m => cases s <;> simp [jsLe]
  | fin n =>
    cases b with
    | nan => simp [jsLe]
    | inf t => cases t <;> simp [jsLe]
    | fin m =>
      intro h1 h2
      simp only [jsLe, decide_eq_true_eq] at h1 h2
      exact congrArg JSNum.fin (le_antisymm h1 h2)

lemma jsLt_of_le_of_ne {a b : JSNum} (h : jsLe a b = true) (hne : a ≠ b) :
    jsLt a b = true := by
  unfold jsLt
  cases h2 : jsLe b a
  · rfl
  · exact absurd (jsLe_antisymm a b h h2) hne

lemma jsInsert_perm (x : JSNum) : ∀ l : List JSNum, List.Perm (jsInsert x l) (x :: l) := by
  intro l
  induction l with
  | nil => simp [jsInsert]
  | cons y ys ih =>
    by_cases h : jsLe x y = true
    · rw [jsInsert, if_pos h]
    · rw [jsInsert, if_neg h]
      exact (ih.cons y).trans (List.Perm.swap x y ys)

lemma jsSort_perm : ∀ l : List JSNum, List.Perm (jsSort l) l := by
  intro l
  induction l with
  | nil => simp [jsSort]
  | cons x xs ih => exact (jsInsert_perm x (jsSort xs)).trans (ih.cons x)

lemma jsInsert_pairwise (x : JSNum) :
    ∀ l : List JSNum, List.Pairwise (fun a b => jsLe a b = true) l →
    List.Pairwise (fun a b => jsLe a b = true) (jsInsert x l) := by
  intro l
  induction l with
  | nil => intro _; simp [jsInsert]
  | cons y ys ih =>
    intro h
    rcases List.pairwise_cons.mp h with ⟨hy, hys⟩
    by_cases hxy : jsLe x y = true
    · rw [jsInsert, if_pos hxy]
      refine List.pairwise_cons.mpr ⟨?_, h⟩
      intro b hb
      rcases List.mem_cons.mp hb with rfl | hb2
      · exact hxy
      · exact jsLe_trans hxy (hy b hb2)
    · have hyx : jsLe y x = true := (jsLe_total x y).resolve_left hxy
      rw [jsInsert, if_neg hxy]
      refine List.pairwise_cons.mpr ⟨?_, ih hys⟩
      intro b hb
      rcases List.mem_cons.mp ((jsInsert_perm x ys).mem_iff.mp hb) with rfl | hb2
      · exact hyx
      · exact hy b hb2

lemma jsSort_pairwise : ∀ l : List JSNum,
    List.Pairwise (fun a b => jsLe a b = true) (jsSort l) := by
  intro l
  induction l with
  | nil => simp [jsSort]
  | cons x xs ih => exact jsInsert_pairwise x (jsSort xs) ih

lemma segLoopFrom_all_ok (ok : Nat → Bool) (title : String) (plan : List JSNum) :
    ∀ (idxs : List Nat) (invs : List Invocation) (segs : List String),
    (∀ i ∈ idxs, ok i = true) →
    segLoopFrom ok title plan idxs invs segs =
      .done (invs ++ idxs.map (invAt plan)) (segs ++ idxs.map (segmentName title)) := by
  intro idxs
  induction idxs with
  | nil => intro invs segs _; simp [segLoopFrom]
  | cons i rest ih =>
    intro invs segs h
    have hi : ok i = true := h i (List.mem_cons_self i rest)
    rw [segLoopFrom, if_pos hi,
      ih (invs ++ [invAt plan i]) (segs ++ [segmentName title i])
        (fun j hj => h j (List.mem_cons_of_mem i hj))]
    simp

lemma runSegments_all_ok (ok : Nat → Bool) (title : String) (plan : List JSNum)
    (h : ∀ i, i < plan.length → ok i = true) :
    runSegments ok title plan =
      .done (plannedInvocations plan) ((List.range plan.length).map (segmentName title)) := by
  unfold runSegments plannedInvocations
  rw [segLoopFrom_all_ok ok title plan (List.range plan.length) [] []
    (fun i hi => h i (List.mem_range.mp hi))]
  simp

lemma handlerV1_success (e : EnvV1) (url : String) (rawTs : List Raw)
    (hu : url ≠ "") (hts : sortedTimestamps rawTs ≠ [])
    (hinfo : e.infoOk = true) (hdl : e.downloadOk = true)
    (hseg : ∀ i, i < (addZero (sortedTimestamps rawTs)).length → e.segOk i = true) :
    handlerV1 e ⟨some url, some rawTs⟩ =
      ⟨⟨200, none, (List.range (addZero (sortedTimestamps rawTs)).length).map
          (segmentName (slugTitle e.infoTitle))⟩,
        2, plannedInvocations (addZero (sortedTimestamps rawTs)),
        (List.range (addZero (sortedTimestamps rawTs)).length).map
          (segmentName (slugTitle e.infoTitle))⟩ := by
  have hlen : (sortedTimestamps rawTs).length ≠ 0 :=
    fun h => hts (List.length_eq_zero.mp h)
  have hrun := runSegments_all_ok e.segOk (slugTitle e.infoTitle)
    (addZero (sortedTimestamps rawTs)) hseg
  simp [handlerV1, hu, hlen, hinfo, hdl, hrun]

lemma handlerV2_success (e : EnvV2) (url vid : String) (rawTs : List Raw)
    (hu : url ≠ "") (hvid : extractVideoId url = some vid)
    (hlink : e.linkOk = true) (hdl : e.downloadOk = true)
    (hts : sortedTimestamps rawTs ≠ [])
    (hseg : ∀ i, i < (addZero (sortedTimestamps rawTs)).length → e.segOk i = true) :
    handlerV2 e ⟨some url, some rawTs⟩ =
      ⟨⟨200, none, (List.range (addZero (sortedTimestamps rawTs)).length).map
          (segmentName (titleV2 e vid))⟩,
        3, plannedInvocations (addZero (sortedTimestamps rawTs)),
        (List.range (addZero (sortedTimestamps rawTs)).length).map
          (segmentName (titleV2 e vid))⟩ := by
  have hlen : (sortedTimestamps rawTs).length ≠ 0 :=
    fun h => hts (List.length_eq_zero.mp h)
  have hrun := runSegments_all_ok e.segOk (titleV2 e vid)
    (addZero (sortedTimestamps rawTs)) hseg
  simp [handlerV2, hu, hvid, hlen, hlink, hdl, hrun]

lemma sourceName_ne_segmentName (title : String) (i : Nat) :
    sourceName title ≠ segmentName title i := by
  unfold sourceName segmentName
  intro h
  have h2 := congrArg String.data h
  simp only [String.data_append, List.append_assoc] at h2
  have h3 := List.append_cancel_left h2
  have h4 : (".mp3").data.head? =
      (("_segment_").data ++ ((Nat.repr (i + 1)).data ++ (".mp3").data)).head? :=
    congrArg List.head? h3
  have h5 : some ('.') = some ('_') := h4
  exact absurd (Option.some.inj h5) (by decide)

lemma sourceName_notin_names (title : String) (n : Nat) :
    sourceName title ∉ (List.range n).map (segmentName title) := by
  intro h
  rcases List.mem_map.mp h with ⟨i, _, hi⟩
  exact sourceName_ne_segmentName title i hi.symm

/-- Claim C5 (confirmed).  Colon strings are read as `mm:ss` (2 parts) or
`hh:mm:ss` (3 parts) converted to `h*3600 + m*60 + s`; results are
sorted ascending with `0` prepended when the minimum is not `0`:
`normalize(["30"]) == [0, 30]`, `normalize(["1:30", "0:10"]) ==
[0, 10, 90]`, `normalize(["1:00:00"]) == [0, 3600]`. -/
theorem claim5_normalize_examples :
    parseEntry (Raw.str ("1:30")) = JSNum.fin 90 ∧
    parseEntry (Raw.str ("0:10")) = JSNum.fin 10 ∧
    parseEntry (Raw.str ("1:00:00")) = JSNum.fin 3600 ∧
    normalizePlan [Raw.str ("30")] = some [JSNum.fin 0, JSNum.fin 30] ∧
    normalizePlan [Raw.str ("1:30"), Raw.str ("0:10")] =
      some [JSNum.fin 0, JSNum.fin 10, JSNum.fin 90] ∧
    normalizePlan [Raw.str ("1:00:00")] = some [JSNum.fin 0, JSNum.fin 3600] := by
  decide

/-- Claim C2 (counterexample).  The claim asserts strict increase even for
inputs with duplicate values, but the code only sorts (it never
deduplicates): `normalize(["30", "30"])` yields `[0, 30, 30]`, whose
consecutive elements 30, 30 are not strictly increasing. -/
theorem claim2_counterexample :
    normalizePlan [Raw.str ("30"), Raw.str ("30")] =
      some [JSNum.fin 0, JSNum.fin 30, JSNum.fin 30] ∧
    ¬ StrictIncr [JSNum.fin 0, JSNum.fin 30, JSNum.fin 30] := by
  constructor
  · decide
  · intro h
    unfold StrictIncr at h
    have h30 := (List.pairwise_cons.mp (List.pairwise_cons.mp h).2).1
      (JSNum.fin 30) (List.mem_singleton_self _)
    exact absurd h30 (by decide)

/-- Claim C2 (amended).  For every raw list with at least one entry that
parses to a non-`NaN` number, the produced cut plan has first element 0
and length at least 1; it is strictly increasing provided the kept parsed
values are pairwise distinct and none is negative (duplicates give equal
adjacent entries, and a negative value ends up after the prepended 0). -/
theorem claim2_normalize_shape :
    ∀ (raw : List Raw) (plan : List JSNum), normalizePlan raw = some plan →
    (plan.head? = some (JSNum.fin 0) ∧ 1 ≤ plan.length) ∧
    ((keptTimestamps raw).Nodup →
      (∀ v ∈ keptTimestamps raw, jsLe (JSNum.fin 0) v = true) →
      StrictIncr plan) := by
  intro raw plan h
  unfold normalizePlan at h
  by_cases hlen : (sortedTimestamps raw).length = 0
  · rw [if_pos hlen] at h
    exact absurd h (by simp)
  · rw [if_neg hlen] at h
    have hplan : plan = addZero (sortedTimestamps raw) := (Option.some.inj h).symm
    subst hplan
    have hperm := jsSort_perm (keptTimestamps raw)
    have hsorted : List.Pairwise (fun a b => jsLe a b = true) (sortedTimestamps raw) :=
      jsSort_pairwise (keptTimestamps raw)
    constructor
    · constructor
      · unfold addZero
        by_cases hh : (sortedTimestamps raw).head? = some (JSNum.fin 0)
        · rw [if_pos hh]
          exact hh
        · rw [if_neg hh]
          rfl
      · unfold addZero
        by_cases hh : (sortedTimestamps raw).head? = some (JSNum.fin 0)
        · rw [if_pos hh]
          omega
        · rw [if_neg hh]
          simp
    · intro hnd hnn
      have hndts : (sortedTimestamps raw).Nodup := hperm.nodup_iff.mpr hnd
      have hstrict : StrictIncr (sortedTimestamps raw) := by
        unfold StrictIncr
        exact (hsorted.and hndts).imp (fun hab => jsLt_of_le_of_ne hab.1 hab.2)
      unfold addZero
      by_cases hh : (sortedTimestamps raw).head? = some (JSNum.fin 0)
      · rw [if_pos hh]
        exact hstrict
      · rw [if_neg hh]
        unfold StrictIncr
        refine List.pairwise_cons.mpr ⟨?_, hstrict⟩
        intro b hb
        have hb0 : jsLe (JSNum.fin 0) b = true := hnn b (hperm.mem_iff.mp hb)
        refine jsLt_of_le_of_ne hb0 ?_
        intro hbeq
        rcases hts2 : sortedTimestamps raw with _ | ⟨h0, t0⟩
        · rw [hts2] at hb
          exact absurd hb (List.not_mem_nil b)
        · rw [hts2] at hb hh hsorted
          rcases List.mem_cons.mp hb with rfl | hmem
          · exact hh (by rw [← hbeq]; rfl)
          · have hle1 : jsLe h0 b = true :=
              (List.pairwise_cons.mp hsorted).1 b hmem
            have hmem0 : h0 ∈ sortedTimestamps raw := by
              rw [hts2]
              exact List.mem_cons_self h0 t0
            have hle2 : jsLe (JSNum.fin 0) h0 = true :=
              hnn h0 (hperm.mem_iff.mp hmem0)
            have hle1b : jsLe h0 (JSNum.fin 0) = true := by rw [hbeq]; exact hle1
            have h00 : h0 = JSNum.fin 0 := jsLe_antisymm h0 (JSNum.fin 0) hle1b hle2
            exact hh (by rw [h00]; rfl)

/-- Claim C2 (witness). -/
theorem claim2_witness :
    ([JSNum.fin 0, JSNum.fin 30].head? = some (JSNum.fin 0) ∧
      1 ≤ [JSNum.fin 0, JSNum.fin 30].length) ∧
    StrictIncr [JSNum.fin 0, JSNum.fin 30] := by
  have h := claim2_normalize_shape [Raw.str ("30")] [JSNum.fin 0, JSNum.fin 30] (by decide)
  exact ⟨h.1, h.2 (by decide) (by decide)⟩

/-- Claim C3 (confirmed).  For a cut plan of N offsets with every interval
succeeding, extraction invokes the transcoding operation exactly N times
(the i-th with start `CutPlan[i]` and duration `CutPlan[i+1] - CutPlan[i]`,
the last with no duration) and returns exactly N segments named with
1-based ordinals; in particular `[0, 30, 90]` produces the invocations
`(0, 30)`, `(30, 60)`, `(90, none)`. -/
theorem claim3_extraction_loop :
    (∀ (title : String) (plan : List JSNum) (ok : Nat → Bool),
      (∀ i, i < plan.length → ok i = true) →
      runSegments ok title plan =
        .done (plannedInvocations plan)
          ((List.range plan.length).map (segmentName title)) ∧
      (plannedInvocations plan).length = plan.length) ∧
    plannedInvocations [JSNum.fin 0, JSNum.fin 30, JSNum.fin 90] =
      [⟨JSNum.fin 0, some (JSNum.fin 30)⟩, ⟨JSNum.fin 30, some (JSNum.fin 60)⟩,
        ⟨JSNum.fin 90, none⟩] := by
  refine ⟨?_, by decide⟩
  intro title plan ok h
  refine ⟨runSegments_all_ok ok title plan h, ?_⟩
  simp [plannedInvocations]

/-- Claim C3 (witness). -/
theorem claim3_witness :
    runSegments (fun _ => true) ("song") [JSNum.fin 0, JSNum.fin 30, JSNum.fin 90] =
      .done (plannedInvocations [JSNum.fin 0, JSNum.fin 30, JSNum.fin 90])
        ((List.range 3).map (segmentName ("song"))) :=
  (claim3_extraction_loop.1 ("song") [JSNum.fin 0, JSNum.fin 30, JSNum.fin 90]
    (fun _ => true) (fun _ _ => rfl)).1

/-- Claim C6 (counterexample).  The claim says every entry whose parse
result is non-finite (including infinities) is dropped, but the filter is
only `!isNaN(ts)`: `"Infinity"` parses to the infinite value and is kept,
ending up in the cut plan. -/
theorem claim6_counterexample :
    parseEntry (Raw.str ("Infinity")) = JSNum.inf true ∧
    normalizePlan [Raw.str ("Infinity")] = some [JSNum.fin 0, JSNum.inf true] := by
  decide

/-- Claim C6 (amended).  Normalization discards exactly the raw entries
whose parse result is `NaN`, silently: a value survives into the sorted
timestamp list iff it is the parse of some entry and is not `NaN` (so
infinite values are kept); in particular
`normalize(["abc", "30"]) == [0, 30]`. -/
theorem claim6_nan_filter :
    normalizePlan [Raw.str ("abc"), Raw.str ("30")] =
      some [JSNum.fin 0, JSNum.fin 30] ∧
    ∀ (raw : List Raw) (x : JSNum),
      x ∈ sortedTimestamps raw ↔ (x ∈ raw.map parseEntry ∧ x.isNaN = false) := by
  refine ⟨by decide, ?_⟩
  intro raw x
  unfold sortedTimestamps keptTimestamps
  rw [(jsSort_perm _).mem_iff, List.mem_filter]
  simp [Bool.not_eq_true']

/-- Claim C6 (witness). -/
theorem claim6_witness :
    JSNum.fin 30 ∈ sortedTimestamps [Raw.str ("abc"), Raw.str ("30")] :=
  (claim6_nan_filter.2 [Raw.str ("abc"), Raw.str ("30")] (JSNum.fin 30)).mpr (by decide)

/-- Claim C10 (confirmed).  `GET /download/:filename` resolves the file as
the plain `path.join` of the downloads directory with the caller-supplied
filename, with no containment check, so a filename with `..` components
makes it serve — and then delete — a path outside the downloads
directory: with the app rooted at `/srv/app`, the filename
`../../etc/passwd` resolves to `/srv/etc/passwd`. -/
theorem claim10_path_escape :
    downloadFilePath ("/srv/app") ("../../etc/passwd") = "/srv/etc/passwd" ∧
    insideDir (downloadsDirOf ("/srv/app")) ("/srv/etc/passwd") = false ∧
    downloadHandler ("/srv/app") ("../../etc/passwd") (fun _ => true) =
      ⟨200, some ("/srv/etc/passwd"), some ("/srv/etc/passwd")⟩ := by
  decide

/-- Claim C1 (counterexample).  The claim asserts the failure-cleanup for
both server variants, but variant 1 has no cleanup: when interval 1 of
the plan `[0, 30]` fails, its outer catch sends the 500 response while
the source file `song.mp3` and the prior segment `song_segment_1.mp3`
are still on disk. -/
theorem claim1_counterexample :
    handlerV1 ⟨true, "Song", "", true, "", fun i => decide (i = 0), "boom"⟩
      ⟨some ("u"), some [Raw.str ("30")]⟩ =
    ⟨⟨500, some ("Failed to process video: Failed to process segment 2: Failed to process segment 2: boom"), []⟩,
      2, [⟨JSNum.fin 0, some (JSNum.fin 30)⟩, ⟨JSNum.fin 30, none⟩],
      ["song.mp3", "song_segment_1.mp3"]⟩ := by
  decide

/-- Claim C1 (amended).  In variant 2, whenever some interval's transcoding
fails, the handler deletes every segment file produced by prior intervals
and the source file before sending the 500 response, for every cut plan
and every failing index; variant 1 surfaces its 500 without deleting
them. -/
theorem claim1_v2_failure_cleanup :
    ∀ (e : EnvV2) (url vid : String) (rawTs : List Raw) (i : Nat)
      (invs : List Invocation) (segs : List String),
    url ≠ "" → extractVideoId url = some vid →
    e.linkOk = true → e.downloadOk = true →
    sortedTimestamps rawTs ≠ [] →
    runSegments e.segOk (titleV2 e vid) (addZero (sortedTimestamps rawTs)) =
      .fail i invs segs →
    (handlerV2 e ⟨some url, some rawTs⟩).response.status = 500 ∧
    (handlerV2 e ⟨some url, some rawTs⟩).disk = [] ∧
    (handlerV2 e ⟨some url, some rawTs⟩).response.segments = [] := by
  intro e url vid rawTs i invs segs hu hvid hlink hdl hts hrun
  have hlen : (sortedTimestamps rawTs).length ≠ 0 :=
    fun h => hts (List.length_eq_zero.mp h)
  refine ⟨?_, ?_, ?_⟩ <;> simp [handlerV2, hu, hvid, hlen, hlink, hdl, hrun]

/-- Claim C1 (witness). -/
theorem claim1_witness :
    (handlerV2 ⟨true, true, some ("Song"), true, "", true, "", fun _ => false, "boom"⟩
      ⟨some ("watch?v=abc"), some [Raw.str ("30")]⟩).response.status = 500 ∧
    (handlerV2 ⟨true, true, some ("Song"), true, "", true, "", fun _ => false, "boom"⟩
      ⟨some ("watch?v=abc"), some [Raw.str ("30")]⟩).disk = [] ∧
    (handlerV2 ⟨true, true, some ("Song"), true, "", true, "", fun _ => false, "boom"⟩
      ⟨some ("watch?v=abc"), some [Raw.str ("30")]⟩).response.segments = [] :=
  claim1_v2_failure_cleanup
    ⟨true, true, some ("Song"), true, "", true, "", fun _ => false, "boom"⟩
    ("watch?v=abc") ("abc") [Raw.str ("30")] 0
    [⟨JSNum.fin 0, some (JSNum.fin 30)⟩] []
    (by decide) (by decide) rfl rfl (by decide) (by decide)

/-- Claim C4 (counterexample).  The claim says the two variants have equal
success/failure/cleanup behaviour on every input, but on the same
request, with matching fetch results and interval 1 failing, variant 1
leaves the source and the first segment on disk while variant 2 deletes
everything. -/
theorem claim4_counterexample :
    (handlerV1 ⟨true, "Song", "", true, "", fun i => decide (i = 0), "boom"⟩
      ⟨some ("watch?v=abc"), some [Raw.str ("30")]⟩).disk =
      ["song.mp3", "song_segment_1.mp3"] ∧
    (handlerV2 ⟨true, true, some ("Song"), true, "", true, "", fun i => decide (i = 0), "boom"⟩
      ⟨some ("watch?v=abc"), some [Raw.str ("30")]⟩).disk = [] ∧
    (handlerV1 ⟨true, "Song", "", true, "", fun i => decide (i = 0), "boom"⟩
      ⟨some ("watch?v=abc"), some [Raw.str ("30")]⟩).disk ≠
    (handlerV2 ⟨true, true, some ("Song"), true, "", true, "", fun i => decide (i = 0), "boom"⟩
      ⟨some ("watch?v=abc"), some [Raw.str ("30")]⟩).disk := by
  decide

/-- Claim C4 (amended).  The variants share the timestamp normalization and
the per-interval transcoding arguments verbatim, and on the success path
(matching fetch results, every interval succeeding) they produce the same
response, the same files on disk and the same transcoding invocations;
they differ in the fetch service and call sequence, in error bodies, and
in failure cleanup (variant 2 deletes partial artifacts on a failing
interval, variant 1 does not). -/
theorem claim4_success_agreement :
    ∀ (t url vid : String) (rawTs : List Raw) (ok : Nat → Bool),
    url ≠ "" → extractVideoId url = some vid → t ≠ "" →
    sortedTimestamps rawTs ≠ [] → (∀ i, ok i = true) →
    (handlerV1 ⟨true, t, "", true, "", ok, ""⟩ ⟨some url, some rawTs⟩).response =
      (handlerV2 ⟨true, true, some t, true, "", true, "", ok, ""⟩
        ⟨some url, some rawTs⟩).response ∧
    (handlerV1 ⟨true, t, "", true, "", ok, ""⟩ ⟨some url, some rawTs⟩).disk =
      (handlerV2 ⟨true, true, some t, true, "", true, "", ok, ""⟩
        ⟨some url, some rawTs⟩).disk ∧
    (handlerV1 ⟨true, t, "", true, "", ok, ""⟩ ⟨some url, some rawTs⟩).invocations =
      (handlerV2 ⟨true, true, some t, true, "", true, "", ok, ""⟩
        ⟨some url, some rawTs⟩).invocations := by
  intro t url vid rawTs ok hu hvid ht hts hok
  rw [handlerV1_success ⟨true, t, "", true, "", ok, ""⟩ url rawTs hu hts rfl rfl
      (fun i _ => hok i),
    handlerV2_success ⟨true, true, some t, true, "", true, "", ok, ""⟩ url vid rawTs
      hu hvid rfl rfl hts (fun i _ => hok i)]
  simp [titleV2, slugTitle, ht]

/-- Claim C4 (witness). -/
theorem claim4_witness :
    (handlerV1 ⟨true, "Song", "", true, "", fun _ => true, ""⟩
      ⟨some ("watch?v=abc"), some [Raw.str ("30")]⟩).response =
      (handlerV2 ⟨true, true, some ("Song"), true, "", true, "", fun _ => true, ""⟩
        ⟨some ("watch?v=abc"), some [Raw.str ("30")]⟩).response :=
  (claim4_success_agreement ("Song") ("watch?v=abc") ("abc") [Raw.str ("30")]
    (fun _ => true) (by decide) (by decide) (by decide) (by decide) (fun _ => rfl)).1

/-- Claim C7 (counterexample).  The claim says that on an input with no
valid timestamps no fetch is attempted, but variant 2 performs its
video-info fetch call before parsing timestamps: on `["abc"]` it answers
400 having already made one fetch-service call. -/
theorem claim7_counterexample :
    (handlerV2 ⟨true, true, some ("Song"), true, "", true, "", fun _ => true, ""⟩
      ⟨some ("watch?v=abc"), some [Raw.str ("abc")]⟩).response.status = 400 ∧
    (handlerV2 ⟨true, true, some ("Song"), true, "", true, "", fun _ => true, ""⟩
      ⟨some ("watch?v=abc"), some [Raw.str ("abc")]⟩).fetchCalls = 1 := by
  decide

/-- Claim C7 (amended).  When no entry of the raw timestamp list parses to
a (non-`NaN`) number, both variants answer 400 `No valid timestamps
provided` with no transcoding invocation, no media download and no files
on disk; variant 1 attempts no fetch call at all, while variant 2 has
already made its one video-info fetch call before the timestamp check. -/
theorem claim7_no_valid_timestamps :
    ∀ (e1 : EnvV1) (e2 : EnvV2) (url1 url2 vid : String) (rawTs : List Raw),
    url1 ≠ "" → url2 ≠ "" → extractVideoId url2 = some vid →
    keptTimestamps rawTs = [] →
    handlerV1 e1 ⟨some url1, some rawTs⟩ =
      ⟨⟨400, some ("No valid timestamps provided"), []⟩, 0, [], []⟩ ∧
    handlerV2 e2 ⟨some url2, some rawTs⟩ =
      ⟨⟨400, some ("No valid timestamps provided"), []⟩, 1, [], []⟩ := by
  intro e1 e2 url1 url2 vid rawTs hu1 hu2 hvid hkept
  have hlen : (sortedTimestamps rawTs).length = 0 := by
    unfold sortedTimestamps
    rw [hkept]
    rfl
  constructor
  · simp [handlerV1, hu1, hlen]
  · simp [handlerV2, hu2, hvid, hlen]

/-- Claim C7 (witness). -/
theorem claim7_witness :
    handlerV1 ⟨true, "Song", "", true, "", fun _ => true, ""⟩
      ⟨some ("u"), some [Raw.str ("abc")]⟩ =
      ⟨⟨400, some ("No valid timestamps provided"), []⟩, 0, [], []⟩ ∧
    handlerV2 ⟨true, true, some ("Song"), true, "", true, "", fun _ => true, ""⟩
      ⟨some ("watch?v=abc"), some [Raw.str ("abc")]⟩ =
      ⟨⟨400, some ("No valid timestamps provided"), []⟩, 1, [], []⟩ :=
  claim7_no_valid_timestamps
    ⟨true, "Song", "", true, "", fun _ => true, ""⟩
    ⟨true, true, some ("Song"), true, "", true, "", fun _ => true, ""⟩
    ("u") ("watch?v=abc") ("abc") [Raw.str ("abc")]
    (by decide) (by decide) (by decide) (by decide)

/-- Claim C9 (confirmed).  When every interval's transcoding succeeds, both
variants delete the source media file before responding, leave every
produced segment file on disk, and return the complete ordered sequence
of segment names with status 200. -/
theorem claim9_success_cleanup :
    ∀ (e1 : EnvV1) (e2 : EnvV2) (url1 url2 vid : String) (rawTs : List Raw),
    url1 ≠ "" → url2 ≠ "" → extractVideoId url2 = some vid →
    e1.infoOk = true → e1.downloadOk = true →
    e2.linkOk = true → e2.downloadOk = true →
    sortedTimestamps rawTs ≠ [] →
    (∀ i, e1.segOk i = true) → (∀ i, e2.segOk i = true) →
    ((handlerV1 e1 ⟨some url1, some rawTs⟩).response.status = 200 ∧
      (handlerV1 e1 ⟨some url1, some rawTs⟩).response.segments =
        (List.range (addZero (sortedTimestamps rawTs)).length).map
          (segmentName (slugTitle e1.infoTitle)) ∧
      (handlerV1 e1 ⟨some url1, some rawTs⟩).disk =
        (List.range (addZero (sortedTimestamps rawTs)).length).map
          (segmentName (slugTitle e1.infoTitle)) ∧
      sourceName (slugTitle e1.infoTitle) ∉ (handlerV1 e1 ⟨some url1, some rawTs⟩).disk) ∧
    ((handlerV2 e2 ⟨some url2, some rawTs⟩).response.status = 200 ∧
      (handlerV2 e2 ⟨some url2, some rawTs⟩).response.segments =
        (List.range (addZero (sortedTimestamps rawTs)).length).map
          (segmentName (titleV2 e2 vid)) ∧
      (handlerV2 e2 ⟨some url2, some rawTs⟩).disk =
        (List.range (addZero (sortedTimestamps rawTs)).length).map
          (segmentName (titleV2 e2 vid)) ∧
      sourceName (titleV2 e2 vid) ∉ (handlerV2 e2 ⟨some url2, some rawTs⟩).disk) := by
  intro e1 e2 url1 url2 vid rawTs hu1 hu2 hvid hinfo hdl1 hlink hdl2 hts hok1 hok2
  have h1 := handlerV1_success e1 url1 rawTs hu1 hts hinfo hdl1 (fun i _ => hok1 i)
  have h2 := handlerV2_success e2 url2 vid rawTs hu2 hvid hlink hdl2 hts (fun i _ => hok2 i)
  refine ⟨⟨?_, ?_, ?_, ?_⟩, ⟨?_, ?_, ?_, ?_⟩⟩
  · rw [h1]
  · rw [h1]
  · rw [h1]
  · rw [h1]
    exact sourceName_notin_names (slugTitle e1.infoTitle) _
  · rw [h2]
  · rw [h2]
  · rw [h2]
  · rw [h2]
    exact sourceName_notin_names (titleV2 e2 vid) _

/-- Claim C9 (witness). -/
theorem claim9_witness :
    (handlerV1 ⟨true, "Song", "", true, "", fun _ => true, ""⟩
      ⟨some ("u"), some [Raw.str ("30")]⟩).response.status = 200 ∧
    (handlerV2 ⟨true, true, some ("Song"), true, "", true, "", fun _ => true, ""⟩
      ⟨some ("watch?v=abc"), some [Raw.str ("30")]⟩).response.status = 200 :=
  ⟨(claim9_success_cleanup ⟨true, "Song", "", true, "", fun _ => true, ""⟩
      ⟨true, true, some ("Song"), true, "", true, "", fun _ => true, ""⟩
      ("u") ("watch?v=abc") ("abc") [Raw.str ("30")]
      (by decide) (by decide) (by decide) rfl rfl rfl rfl (by decide)
      (fun _ => rfl) (fun _ => rfl)).1.1,
    (claim9_success_cleanup ⟨true, "Song", "", true, "", fun _ => true, ""⟩
      ⟨true, true, some ("Song"), true, "", true, "", fun _ => true, ""⟩
      ("u") ("watch?v=abc") ("abc") [Raw.str ("30")]
      (by decide) (by decide) (by decide) rfl rfl rfl rfl (by decide)
      (fun _ => rfl) (fun _ => rfl)).2.1⟩

/-- Claim C8 (counterexample).  The claim requires a status in the 400
range for caller-input problems including a bad/invalid URL, but a URL
without a video id makes variant 2 answer 500 (and a failing youtube-dl
info call makes variant 1 answer 500 as well). -/
theorem claim8_counterexample :
    (handlerV2 ⟨true, true, some ("Song"), true, "", true, "", fun _ => true, ""⟩
      ⟨some ("https://youtu.be/x"), some [Raw.str ("30")]⟩).response.status = 500 ∧
    ¬ (400 ≤ (handlerV2 ⟨true, true, some ("Song"), true, "", true, "", fun _ => true, ""⟩
        ⟨some ("https://youtu.be/x"), some [Raw.str ("30")]⟩).response.status ∧
      (handlerV2 ⟨true, true, some ("Song"), true, "", true, "", fun _ => true, ""⟩
        ⟨some ("https://youtu.be/x"), some [Raw.str ("30")]⟩).response.status < 500) ∧
    (handlerV1 ⟨false, "", "video unavailable", true, "", fun _ => true, ""⟩
      ⟨some ("u"), some [Raw.str ("30")]⟩).response.status = 500 := by
  decide

/-- Claim C8 (amended).  Every failure carries an error message: each
response is either a 200 success without error message or a 400/500
failure with one.  The 400 status is produced exactly for the
missing/invalid input shape and for the no-valid-timestamps case; bad
URLs, fetch failures and source-unavailable conditions all surface as
500 (in variant 1 through its catch-all, in variant 2 through its
info/download catches), as do transcoding failures. -/
theorem claim8_status_taxonomy :
    (∀ (e : EnvV1) (req : Request), wellFormedResp (handlerV1 e req).response) ∧
    (∀ (e : EnvV2) (req : Request), wellFormedResp (handlerV2 e req).response) ∧
    (∀ (e : EnvV1) (url : String) (rawTs : List Raw), url ≠ "" →
      ((handlerV1 e ⟨some url, some rawTs⟩).response.status = 400 ↔
        sortedTimestamps rawTs = [])) ∧
    (∀ (e : EnvV2) (url : String) (rawTs : List Raw), url ≠ "" →
      ((handlerV2 e ⟨some url, some rawTs⟩).response.status = 400 ↔
        ((extractVideoId url).isSome = true ∧ sortedTimestamps rawTs = []))) := by
  refine ⟨?_, ?_, ?_, ?_⟩
  · intro e req
    rcases req with ⟨u, ts⟩
    cases u with
    | none => cases ts <;> simp [handlerV1, wellFormedResp]
    | some url =>
      cases ts with
      | none => simp [handlerV1, wellFormedResp]
      | some rawTs =>
        by_cases h1 : url = ""
        · simp [handlerV1, h1, wellFormedResp]
        · by_cases h2 : (sortedTimestamps rawTs).length = 0
          · simp [handlerV1, h1, h2, wellFormedResp]
          · cases h3 : e.infoOk with
            | false => simp [handlerV1, h1, h2, h3, wellFormedResp]
            | true =>
              cases h4 : e.downloadOk with
              | false => simp [handlerV1, h1, h2, h3, h4, wellFormedResp]
              | true =>
                rcases hrun : runSegments e.segOk (slugTitle e.infoTitle)
                    (addZero (sortedTimestamps rawTs)) with ⟨invs, segs⟩ | ⟨i, invs, segs⟩ <;>
                  simp [handlerV1, h1, h2, h3, h4, hrun, wellFormedResp]
  · intro e req
    rcases req with ⟨u, ts⟩
    cases u with
    | none => cases ts <;> simp [handlerV2, wellFormedResp]
    | some url =>
      cases ts with
      | none => simp [handlerV2, wellFormedResp]
      | some rawTs =>
        by_cases h1 : url = ""
        · simp [handlerV2, h1, wellFormedResp]
        · cases hvid : extractVideoId url with
          | none => simp [handlerV2, h1, hvid, wellFormedResp]
          | some vid =>
            by_cases h2 : (sortedTimestamps rawTs).length = 0
            · simp [handlerV2, h1, hvid, h2, wellFormedResp]
            · cases h3 : e.linkOk with
              | false => simp [handlerV2, h1, hvid, h2, h3, wellFormedResp]
              | true =>
                cases h4 : e.downloadOk with
                | false => simp [handlerV2, h1, hvid, h2, h3, h4, wellFormedResp]
                | true =>
                  rcases hrun : runSegments e.segOk (titleV2 e vid)
                      (addZero (sortedTimestamps rawTs)) with ⟨invs, segs⟩ | ⟨i, invs, segs⟩ <;>
                    simp [handlerV2, h1, hvid, h2, h3, h4, hrun, wellFormedResp]
  · intro e url rawTs hu
    by_cases h2 : (sortedTimestamps rawTs).length = 0
    · have h2b : sortedTimestamps rawTs = [] := List.length_eq_zero.mp h2
      simp [handlerV1, hu, h2, h2b]
    · have h2b : ¬ sortedTimestamps rawTs = [] := fun h => h2 (by rw [h]; rfl)
      cases h3 : e.infoOk with
      | false => simp [handlerV1, hu, h2, h3, h2b]
      | true =>
        cases h4 : e.downloadOk with
        | false => simp [handlerV1, hu, h2, h3, h4, h2b]
        | true =>
          rcases hrun : runSegments e.segOk (slugTitle e.infoTitle)
              (addZero (sortedTimestamps rawTs)) with ⟨invs, segs⟩ | ⟨i, invs, segs⟩ <;>
            simp [handlerV1, hu, h2, h3, h4, hrun, h2b]
  · intro e url rawTs hu
    cases hvid : extractVideoId url with
    | none =>
      by_cases h2 : (sortedTimestamps rawTs).length = 0
      · simp [handlerV2, hu, hvid, h2]
      · simp [handlerV2, hu, hvid, h2]
    | some vid =>
      by_cases h2 : (sortedTimestamps rawTs).length = 0
      · have h2b : sortedTimestamps rawTs = [] := List.length_eq_zero.mp h2
        simp [handlerV2, hu, hvid, h2, h2b]
      · have h2b : ¬ sortedTimestamps rawTs = [] := fun h => h2 (by rw [h]; rfl)
        cases h3 : e.linkOk with
        | false => simp [handlerV2, hu, hvid, h2, h3, h2b]
        | true =>
          cases h4 : e.downloadOk with
          | false => simp [handlerV2, hu, hvid, h2, h3, h4, h2b]
          | true =>
            rcases hrun : runSegments e.segOk (titleV2 e vid)
                (addZero (sortedTimestamps rawTs)) with ⟨invs, segs⟩ | ⟨i, invs, segs⟩ <;>
              simp [handlerV2, hu, hvid, h2, h3, h4, hrun, h2b]

/-- Claim C8 (witness). -/
theorem claim8_witness :
    wellFormedResp (handlerV1 ⟨true, "Song", "", true, "", fun _ => true, ""⟩
      ⟨some ("u"), some [Raw.str ("30")]⟩).response ∧
    ((handlerV1 ⟨true, "Song", "", true, "", fun _ => true, ""⟩
      ⟨some ("u"), some [Raw.str ("abc")]⟩).response.status = 400 ↔
      sortedTimestamps [Raw.str ("abc")] = []) :=
  ⟨claim8_status_taxonomy.1 ⟨true, "Song", "", true, "", fun _ => true, ""⟩
      ⟨some ("u"), some [Raw.str ("30")]⟩,
    claim8_status_taxonomy.2.2.1 ⟨true, "Song", "", true, "", fun _ => true, ""⟩
      ("u") [Raw.str ("abc")] (by decide)⟩
